import Mathlib

/-!
Shallow embedding of the wizard views in
`django_models_from_csv/views/configuration.py`: the request handlers
`begin`, `refine_and_import`, `refine_and_import_by_name` and `import_data`,
together with the persisted state they read and mutate.  External
collaborators (dynamic-model factories, CSV fetchers, OAuth client, the
record importer, the refine form and the settings accessor) live in modules
of this repository that are not part of the excerpt; they are modelled from
the specification as an oracle environment `Env`, and each such definition
says so in its doc comment.  Handlers are pure functions from an
environment, a database state and a request to the pair of the new database
state and either an HTTP response or an uncaught Python exception.
-/

namespace Collaborative

/-- HTTP method of a request (the handlers only distinguish GET and POST). -/
inductive Method where
  | GET
  | POST
deriving DecidableEq, Repr

/-- One entry of a column specification: a column name and its type. -/
structure Column where
  name : String
  ty : String
deriving DecidableEq, Repr

/-- A row of tabular data, as produced by a fetcher. -/
abbrev Row := List String

/-- The persisted schema descriptor (`models.DynamicModel`): identity,
human-readable name, column specification and the source-descriptor fields
(`csv_url`, `csv_google_refresh_token`, `sd_api_key`, `sd_project_id`,
`sd_form_id`).  Optional string fields keep Python's distinction between an
absent (`None`) and an empty value. -/
structure DynamicModel where
  id : Nat
  name : Option String
  columns : List Column
  csv_url : Option String
  csv_google_refresh_token : Option String
  sd_api_key : Option String
  sd_project_id : Option Int
  sd_form_id : Option Int
deriving DecidableEq, Repr

/-- Python truthiness of an optional string: `None` and `""` are falsy. -/
def truthy : Option String → Bool
  | none => false
  | some s => s ≠ ""

/-- The persistence layer visible to the handlers: the `DynamicModel` table
and, for each descriptor id, the rows of its backing data table. -/
structure Db where
  dynmodels : List DynamicModel
  tables : List (Nat × List Row)
deriving DecidableEq, Repr

/-- `DynamicModel.objects` lookup by id (`get_object_or_404` succeeds iff
this returns `some`). -/
def Db.find (db : Db) (id : Nat) : Option DynamicModel :=
  db.dynmodels.find? (fun x => x.id == id)

/-- Lookup by `name`, as used by `refine_and_import_by_name`. -/
def Db.findByName (db : Db) (n : String) : Option DynamicModel :=
  db.dynmodels.find? (fun x => x.name == some n)

/-- `dynmodel.save()`: replace the row with the same id, or insert when the
instance is new. -/
def Db.saveModel (db : Db) (m : DynamicModel) : Db :=
  if db.dynmodels.any (fun x => x.id == m.id) then
    { db with dynmodels := db.dynmodels.map (fun x => if x.id == m.id then m else x) }
  else
    { db with dynmodels := db.dynmodels ++ [m] }

/-- Rows currently stored in the backing table of descriptor `id`
(`Model.objects` contents; `Model.objects.count()` is its length). -/
def Db.rowsOf (db : Db) (id : Nat) : List Row :=
  match db.tables.find? (fun p => p.1 == id) with
  | some p => p.2
  | none => []

/-- Overwrite the stored rows of the backing table of descriptor `id`. -/
def Db.setRows (db : Db) (id : Nat) (rows : List Row) : Db :=
  { db with tables := (id, rows) :: db.tables.filter (fun p => p.1 != id) }

/-- An uncaught Python exception escaping a handler. -/
inductive PyError where
  | notImplementedError (m : DynamicModel)
  | unboundLocalError (v : String)
  | typeError (msg : String)
  | valueError (msg : String)
  | doesNotExist
deriving DecidableEq, Repr

/-- Modelled from the spec: the schema refine form (`SchemaRefineForm`)
validates and normalizes a user-edited column specification.
`data_columns` holds the parsed `columns` field of the bound data, `none`
when it is missing or does not parse. -/
structure SchemaRefineForm where
  data_columns : Option (List Column)
deriving DecidableEq, Repr

/-- Modelled from the spec: the form is valid exactly when its column
specification parsed. -/
def SchemaRefineForm.is_valid (f : SchemaRefineForm) : Bool :=
  f.data_columns.isSome

/-- Modelled from the spec: `cleaned_data["columns"]` of a valid form. -/
def SchemaRefineForm.cleaned_columns (f : SchemaRefineForm) : List Column :=
  f.data_columns.getD []

/-- Template context of a rendered page.  `errors_str` is the `errors`
string passed to `begin.html`; `errors_list` is the `errors` list passed to
`refine-and-import.html`; `n_records` is passed to `import-complete.html`. -/
structure Ctx where
  form : Option SchemaRefineForm := none
  dynmodel : Option DynamicModel := none
  errors_str : Option String := none
  errors_list : Option (List String) := none
  n_records : Option Nat := none
deriving DecidableEq, Repr

/-- Target of a redirect response. -/
inductive RedirectTarget where
  | admin
  | refineAndImport (id : Nat)
  | custom (url : String)
deriving DecidableEq, Repr

/-- An HTTP response produced by a handler. -/
inductive Response where
  | render (template : String) (ctx : Ctx)
  | redirect (target : RedirectTarget)
  | notFound
deriving DecidableEq, Repr

/-- The raw source descriptor handed to a dynamic-model factory. -/
inductive Source where
  | csvDirect (url : String)
  | privateSheet (url : String) (auth_code : String)
  | screendoor (api_key : String) (project_id : Int) (form_id : Option Int)
deriving DecidableEq, Repr

/-- Modelled from the spec: the external collaborators, fixed per request.
`wizard_redirect_to` is the `CSV_MODELS_WIZARD_REDIRECT_TO` setting,
`google_client_id` and `google_client_secret` the OAuth client settings;
`oauth_access_token client_id secret refresh_token` is
`GoogleOAuth(...).get_access_data(refresh_token)["access_token"]`;
`private_sheet_csv token url` is `PrivateSheetImporter(token).get_csv_from_url(url)`;
`fetch_csv` fetches a CSV directly; `screendoor_csv api_key project form`
is `ScreendoorImporter(api_key).build_csv(project, form_id=form)`;
`infer_columns` is the factories' schema inference, failing with the
message of a `UniqueColumnError` on duplicate or invalid column names;
`exchange_auth_code` turns a Google auth code into a refresh token;
`row_error` is the importer's per-row validation. -/
structure Env where
  google_client_id : String
  google_client_secret : String
  wizard_redirect_to : Option String
  oauth_access_token : String → String → String → String
  private_sheet_csv : String → String → List Row
  fetch_csv : String → List Row
  screendoor_csv : String → Option Int → Option Int → List Row
  infer_columns : Source → Except String (List Column)
  exchange_auth_code : String → String
  row_error : Row → Option String

/-- Smallest id not used by any persisted descriptor: the surrogate id the
persistence layer assigns to a newly created row. -/
def fresh_id (db : Db) : Nat :=
  db.dynmodels.foldr (fun m acc => max m.id acc) 0 + 1

/-- Modelled from the spec: the factory `from_private_sheet(name, url,
auth_code=...)` infers columns from the sheet, exchanges the auth code for a
refresh token, and persists exactly one schema descriptor carrying
`csv_url` and `csv_google_refresh_token`; on duplicate or invalid column
names it fails with a `UniqueColumnError` and persists nothing. -/
def from_private_sheet (env : Env) (db : Db) (nm : Option String)
    (url : String) (auth_code : String) :
    Except String (Db × DynamicModel) :=
  match env.infer_columns (.privateSheet url auth_code) with
  | .error e => .error e
  | .ok cols =>
    let m : DynamicModel :=
      { id := fresh_id db, name := nm, columns := cols,
        csv_url := some url,
        csv_google_refresh_token := some (env.exchange_auth_code auth_code),
        sd_api_key := none, sd_project_id := none, sd_form_id := none }
    .ok ({ db with dynmodels := db.dynmodels ++ [m] }, m)

/-- Modelled from the spec: the factory `from_csv_url(name, url, ...)`
infers columns from the fetched CSV and persists exactly one schema
descriptor carrying `csv_url`; on duplicate or invalid column names it
fails with a `UniqueColumnError` and persists nothing.  The
`csv_google_sheets_auth_code` argument is forwarded by the caller but the
descriptor created in this branch carries no refresh token. -/
def from_csv_url (env : Env) (db : Db) (nm : Option String)
    (url : String) (auth_code : Option String) :
    Except String (Db × DynamicModel) :=
  match env.infer_columns (.csvDirect url) with
  | .error e => .error e
  | .ok cols =>
    let _unused := auth_code
    let m : DynamicModel :=
      { id := fresh_id db, name := nm, columns := cols,
        csv_url := some url, csv_google_refresh_token := none,
        sd_api_key := none, sd_project_id := none, sd_form_id := none }
    .ok ({ db with dynmodels := db.dynmodels ++ [m] }, m)

/-- Modelled from the spec: the factory `from_screendoor(name, api_key,
project_id, form_id=...)` builds the CSV through the form service, infers
columns and persists exactly one schema descriptor carrying the `sd_*`
fields; on duplicate or invalid column names it fails with a
`UniqueColumnError` and persists nothing. -/
def from_screendoor (env : Env) (db : Db) (nm : Option String)
    (api_key : String) (project_id : Int) (form_id : Option Int) :
    Except String (Db × DynamicModel) :=
  match env.infer_columns (.screendoor api_key project_id form_id) with
  | .error e => .error e
  | .ok cols =>
    let m : DynamicModel :=
      { id := fresh_id db, name := nm, columns := cols,
        csv_url := none, csv_google_refresh_token := none,
        sd_api_key := some api_key, sd_project_id := some project_id,
        sd_form_id := form_id }
    .ok ({ db with dynmodels := db.dynmodels ++ [m] }, m)

/-- Python `int(x)` on an optional string: `TypeError` on `None`,
`ValueError` on a string that does not parse as an integer. -/
def py_int (x : Option String) : Except PyError Int :=
  match x with
  | none => .error (.typeError "int() argument must not be None")
  | some s =>
    match s.toInt? with
    | some n => .ok n
    | none => .error (.valueError s)

/-- The POST body and query string consumed by `begin`. -/
structure BeginRequest where
  method : Method
  addnew : Option String := none
  csv_url : Option String := none
  csv_google_sheets_auth_code : Option String := none
  sd_api_key : Option String := none
  sd_project_id : Option String := none
  sd_form_id : Option String := none
  csv_name : Option String := none
  sd_name : Option String := none
deriving DecidableEq, Repr

/-- The `form_id=int(sd_form_id) if sd_form_id else None` argument of the
screendoor factory call in `begin`. -/
def sd_form_id_arg (req : BeginRequest) : Except PyError (Option Int) :=
  if truthy req.sd_form_id then (py_int req.sd_form_id).map some else .ok none

/-- The `begin` view (configuration.py lines 26-75): on GET, render the
intake form unless a schema already exists and `addnew` was not requested,
in which case redirect to the admin surface; on POST, dispatch on the
submitted source-descriptor fields to one of the three factories, catching
only `UniqueColumnError`; when no branch ran, the final redirect reads the
unbound local `dynmodel`. -/
def begin (env : Env) (db : Db) (req : BeginRequest) :
    Db × Except PyError Response :=
  match req.method with
  | .GET =>
    if truthy req.addnew then
      (db, .ok (.render "begin.html" {}))
    else if db.dynmodels.length != 0 then
      (db, .ok (.redirect .admin))
    else
      (db, .ok (.render "begin.html" {}))
  | .POST =>
    if truthy req.csv_url && truthy req.csv_google_sheets_auth_code then
      match from_private_sheet env db req.csv_name (req.csv_url.getD "")
          (req.csv_google_sheets_auth_code.getD "") with
      | .error e => (db, .ok (.render "begin.html" { errors_str := some e }))
      | .ok (db2, m) => (db2, .ok (.redirect (.refineAndImport m.id)))
    else if truthy req.csv_url then
      match from_csv_url env db req.csv_name (req.csv_url.getD "")
          req.csv_google_sheets_auth_code with
      | .error e => (db, .ok (.render "begin.html" { errors_str := some e }))
      | .ok (db2, m) => (db2, .ok (.redirect (.refineAndImport m.id)))
    else if truthy req.sd_api_key then
      match py_int req.sd_project_id with
      | .error e => (db, .error e)
      | .ok pid =>
        match sd_form_id_arg req with
        | .error e => (db, .error e)
        | .ok fid =>
          match from_screendoor env db req.sd_name (req.sd_api_key.getD "")
              pid fid with
          | .error e => (db, .ok (.render "begin.html" { errors_str := some e }))
          | .ok (db2, m) => (db2, .ok (.redirect (.refineAndImport m.id)))
    else
      (db, .error (.unboundLocalError "dynmodel"))

/-- The request consumed by `refine_and_import` and `import_data`:
method and, for POST, the submitted column specification (the `columns`
field bound into the refine form). -/
structure RefineRequest where
  method : Method
  columns : Option (List Column) := none
deriving DecidableEq, Repr

/-- The data-source dispatch of `refine_and_import` (configuration.py lines
113-134): OAuth-backed sheet when both `csv_url` and
`csv_google_refresh_token` are populated, direct CSV fetch when only
`csv_url` is, form-service export when `sd_api_key` is, and an uncaught
`NotImplementedError` when none of the three is. -/
def data_fetch (env : Env) (m : DynamicModel) : Except PyError (List Row) :=
  if truthy m.csv_url && truthy m.csv_google_refresh_token then
    let token := env.oauth_access_token env.google_client_id
      env.google_client_secret (m.csv_google_refresh_token.getD "")
    .ok (env.private_sheet_csv token (m.csv_url.getD ""))
  else if truthy m.csv_url then
    .ok (env.fetch_csv (m.csv_url.getD ""))
  else if truthy m.sd_api_key then
    .ok (env.screendoor_csv (m.sd_api_key.getD "") m.sd_project_id m.sd_form_id)
  else
    .error (.notImplementedError m)

/-- Modelled from the spec: `import_records(csv, Model, dynmodel)` writes
one row per CSV record into the backing table and collects per-row
validation errors; rows that fail validation are skipped, so the table
population stays partial on errors.  Returns the new table contents and
the error list. -/
def import_records (env : Env) (csv : List Row) (existing : List Row) :
    List Row × List String :=
  (existing ++ csv.filter (fun r => (env.row_error r).isNone),
   csv.filterMap env.row_error)

/-- The tail of `refine_and_import`'s POST branch after the CSV has been
fetched (configuration.py lines 136-154): run the importer, re-render the
refine page with the error list when errors exist, otherwise redirect to
the `CSV_MODELS_WIZARD_REDIRECT_TO` target when that setting is truthy,
else render the completion page with `Model.objects.count()`. -/
def import_phase (env : Env) (db : Db) (form : SchemaRefineForm)
    (m : DynamicModel) (csv : List Row) : Db × Except PyError Response :=
  let result := import_records env csv (db.rowsOf m.id)
  let db2 := db.setRows m.id result.1
  let errors := result.2
  if errors != [] then
    (db2, .ok (.render "refine-and-import.html"
      { form := some form, dynmodel := some m, errors_list := some errors }))
  else if truthy env.wizard_redirect_to then
    (db2, .ok (.redirect (.custom (env.wizard_redirect_to.getD ""))))
  else
    (db2, .ok (.render "import-complete.html"
      { dynmodel := some m, n_records := some (db2.rowsOf m.id).length }))

/-- The `refine_and_import` view (configuration.py lines 79-154): resolve
the descriptor or return not-found; on GET render the refine form
pre-filled with the current columns; on POST validate the refine form,
re-rendering on failure, otherwise persist the new columns, re-read the
saved row (`refresh_from_db`), fetch the data and run the import phase. -/
def refine_and_import (env : Env) (db : Db) (req : RefineRequest) (id : Nat) :
    Db × Except PyError Response :=
  match db.find id with
  | none => (db, .ok .notFound)
  | some dynmodel =>
    match req.method with
    | .GET =>
      let refine_form : SchemaRefineForm := { data_columns := some dynmodel.columns }
      (db, .ok (.render "refine-and-import.html"
        { form := some refine_form, dynmodel := some dynmodel }))
    | .POST =>
      let refine_form : SchemaRefineForm := { data_columns := req.columns }
      if refine_form.is_valid then
        let cols := refine_form.cleaned_columns
        let db2 := db.saveModel { dynmodel with columns := cols }
        match db2.find id with
        | none => (db2, .error .doesNotExist)
        | some m2 =>
          match data_fetch env m2 with
          | .error e => (db2, .error e)
          | .ok csv => import_phase env db2 refine_form m2 csv
      else
        (db, .ok (.render "refine-and-import.html"
          { form := some refine_form, dynmodel := some dynmodel }))

/-- Modelled from the spec: the custom manager method
`DynamicModel.objects.get_or_404(name=name)` resolves a schema identity by
its human-readable name, yielding not-found when no schema matches. -/
def get_or_404_by_name (db : Db) (n : String) : Option Nat :=
  (db.findByName n).map (fun m => m.id)

/-- The `refine_and_import_by_name` view (configuration.py lines 158-160):
resolve the id by name and delegate to `refine_and_import`. -/
def refine_and_import_by_name (env : Env) (db : Db) (req : RefineRequest)
    (n : String) : Db × Except PyError Response :=
  match get_or_404_by_name db n with
  | none => (db, .ok .notFound)
  | some id => refine_and_import env db req id

/-- The `import_data` view (configuration.py lines 164-178): resolve the
descriptor or return not-found; on GET only render the auto-submitting
confirmation page with the descriptor.  The POST body is truncated in the
excerpt; it is modelled from the spec as re-running the same
fetch-dispatch-and-import logic as `refine_and_import` on the existing
schema. -/
def import_data (env : Env) (db : Db) (req : RefineRequest) (id : Nat) :
    Db × Except PyError Response :=
  match db.find id with
  | none => (db, .ok .notFound)
  | some dynmodel =>
    match req.method with
    | .GET =>
      (db, .ok (.render "import-data.html" { dynmodel := some dynmodel }))
    | .POST =>
      match data_fetch env dynmodel with
      | .error e => (db, .error e)
      | .ok csv =>
        import_phase env db { data_columns := some dynmodel.columns } dynmodel csv

/-- The id a successful `Db.find` returns matches the descriptor's own id. -/
theorem Db.id_of_find {db : Db} {i : Nat} {m : DynamicModel}
    (h : db.find i = some m) : m.id = i := by
  simpa using List.find?_some h

/-- Replacing the descriptor that `find?` locates makes `find?` return the
replacement. -/
theorem find?_map_replace {l : List DynamicModel} {i : Nat} {m m2 : DynamicModel}
    (h : l.find? (fun x => x.id == i) = some m) (hid : m2.id = i) :
    (l.map (fun x => if x.id == m2.id then m2 else x)).find?
      (fun x => x.id == i) = some m2 := by
  induction l with
  | nil => simp at h
  | cons a t ih =>
    rw [List.map_cons]
    cases hpa : (a.id == i) with
    | true =>
      have hf : (if a.id == m2.id then m2 else a) = m2 := by
        have ha : a.id = i := by simpa using hpa
        simp [ha, hid]
      rw [hf]
      exact List.find?_cons_of_pos _ (by simpa using hid)
    | false =>
      have ha : a.id ≠ i := by simpa using hpa
      have hf : (if a.id == m2.id then m2 else a) = a := by
        have hne : a.id ≠ m2.id := fun hc => ha (hc.trans hid)
        simp [hne]
      rw [hf]
      rw [List.find?_cons_of_neg _ (by simpa using ha)]
      rw [List.find?_cons_of_neg _ (by simpa using ha)] at h
      exact ih h

/-- After `saveModel` of an updated descriptor, `find` returns the update. -/
theorem Db.find_saveModel {db : Db} {i : Nat} {m m2 : DynamicModel}
    (h : db.find i = some m) (hid : m2.id = i) :
    (db.saveModel m2).find i = some m2 := by
  have hmem : db.dynmodels.any (fun x => x.id == m2.id) = true := by
    refine List.any_eq_true.mpr ⟨m, List.mem_of_find?_eq_some h, ?_⟩
    have hmi : m.id = i := by simpa using List.find?_some h
    simp [hmi, hid]
  unfold Db.saveModel
  rw [if_pos hmem]
  exact find?_map_replace h hid

/-- `saveModel` does not touch the backing tables. -/
theorem Db.tables_saveModel (db : Db) (m : DynamicModel) :
    (db.saveModel m).tables = db.tables := by
  unfold Db.saveModel
  split <;> rfl

/-- The rows of any backing table are unchanged by `saveModel`. -/
theorem Db.rowsOf_saveModel (db : Db) (m : DynamicModel) (i : Nat) :
    (db.saveModel m).rowsOf i = db.rowsOf i := by
  unfold Db.rowsOf
  rw [Db.tables_saveModel]

/-- `setRows` does not touch the descriptor table. -/
theorem Db.find_setRows (db : Db) (i : Nat) (rows : List Row) (j : Nat) :
    (db.setRows i rows).find j = db.find j := rfl

/-- Reading back the rows just stored by `setRows`. -/
theorem Db.rowsOf_setRows (db : Db) (i : Nat) (rows : List Row) :
    (db.setRows i rows).rowsOf i = rows := by
  unfold Db.setRows Db.rowsOf
  rw [List.find?_cons_of_pos _ (by simp)]

/-- When no element produces an error, the error-free filter keeps all
elements. -/
theorem filter_isNone_of_filterMap_nil {α : Type} (f : α → Option String)
    (l : List α) (h : l.filterMap f = []) :
    l.filter (fun r => (f r).isNone) = l := by
  induction l with
  | nil => rfl
  | cons a t ih =>
    cases hfa : f a with
    | some e =>
      rw [List.filterMap_cons_some hfa] at h
      simp at h
    | none =>
      rw [List.filterMap_cons_none hfa] at h
      rw [List.filter_cons_of_pos (by simp [hfa])]
      rw [ih h]

/-- The importer on an error-free source appends every source row to the
table and reports no errors. -/
theorem import_records_no_errors (env : Env) (csv existing : List Row)
    (h : csv.filterMap env.row_error = []) :
    import_records env csv existing = (existing ++ csv, []) := by
  unfold import_records
  rw [filter_isNone_of_filterMap_nil _ _ h, h]

/-- A sample column specification. -/
def colsA : List Column := [{ name := "a", ty := "text" }]

/-- A second sample column specification, used for edits. -/
def colsB : List Column := [{ name := "b", ty := "number" }]

/-- A descriptor whose source is a direct CSV URL. -/
def mCsv : DynamicModel :=
  { id := 1, name := some "m1", columns := colsA,
    csv_url := some "http://x/data.csv", csv_google_refresh_token := none,
    sd_api_key := none, sd_project_id := none, sd_form_id := none }

/-- A descriptor whose source is an OAuth-backed private sheet. -/
def mSheet : DynamicModel :=
  { id := 2, name := some "m2", columns := colsA,
    csv_url := some "http://sheet", csv_google_refresh_token := some "rt",
    sd_api_key := none, sd_project_id := none, sd_form_id := none }

/-- A descriptor whose source is the form service. -/
def mSd : DynamicModel :=
  { id := 3, name := some "m3", columns := colsA,
    csv_url := none, csv_google_refresh_token := none,
    sd_api_key := some "key", sd_project_id := some 7, sd_form_id := none }

/-- A descriptor with no populated source field. -/
def mBare : DynamicModel :=
  { id := 4, name := some "m4", columns := colsA,
    csv_url := none, csv_google_refresh_token := none,
    sd_api_key := none, sd_project_id := none, sd_form_id := none }

/-- A concrete oracle environment for witnesses: every fetch succeeds, the
factories infer `colsA`, and only the row `["bad"]` fails row validation. -/
def envA : Env :=
  { google_client_id := "cid", google_client_secret := "sec",
    wizard_redirect_to := none,
    oauth_access_token := fun _ _ rt => String.append "tok-" rt,
    private_sheet_csv := fun _ _ => [["p1"], ["p2"], ["p3"]],
    fetch_csv := fun _ => [["r1"], ["r2"]],
    screendoor_csv := fun _ _ _ => [["s1"]],
    infer_columns := fun _ => .ok colsA,
    exchange_auth_code := fun c => String.append "rt-" c,
    row_error := fun r => if r = ["bad"] then some "bad row" else none }

/-- Environment whose factories fail with a `UniqueColumnError`. -/
def envErr : Env :=
  { envA with infer_columns := fun _ => .error "non-unique column name: a" }

/-- Environment whose direct CSV fetch yields one invalid row. -/
def envBad : Env :=
  { envA with fetch_csv := fun _ => [["bad"], ["r2"]] }

/-- Environment with the post-import redirect setting populated. -/
def envNext : Env :=
  { envA with wizard_redirect_to := some "/next/" }

/-- A database holding one descriptor of each source kind, all tables
empty. -/
def dbA : Db := { dynmodels := [mCsv, mSheet, mSd, mBare], tables := [] }

/-- A database holding only the direct-CSV descriptor. -/
def dbOne : Db := { dynmodels := [mCsv], tables := [] }

/-- The empty database. -/
def dbEmpty : Db := { dynmodels := [], tables := [] }

/-- C10: a POST to `begin` in which neither `csv_url` nor `sd_api_key` is
truthy selects no factory branch, so the final redirect reads the unbound
local `dynmodel` and the handler raises an uncaught `UnboundLocalError`
instead of returning any HTTP response. -/
theorem begin_empty_post_unbound (env : Env) (db : Db) (req : BeginRequest)
    (hmeth : req.method = .POST)
    (h1 : truthy req.csv_url = false)
    (h2 : truthy req.sd_api_key = false) :
    begin env db req = (db, .error (.unboundLocalError "dynmodel")) := by
  simp [begin, hmeth, h1, h2]

/-- Witness for C10: the wholly empty POST body. -/
theorem begin_empty_post_unbound_witness :
    truthy (none : Option String) = false ∧
    begin envA dbOne { method := .POST } =
      (dbOne, .error (.unboundLocalError "dynmodel")) :=
  ⟨rfl, begin_empty_post_unbound envA dbOne { method := .POST } rfl rfl rfl⟩

/-- C8 counterexample: with the `addnew` query parameter present but bound
to the empty string and one schema descriptor persisted, a GET to `begin`
redirects to the admin surface instead of rendering the intake form. -/
theorem begin_addnew_counterexample :
    ({ method := .GET, addnew := some "" } : BeginRequest).addnew.isSome = true ∧
    dbOne.dynmodels.length = 1 ∧
    begin envA dbOne { method := .GET, addnew := some "" } =
      (dbOne, .ok (.redirect .admin)) := by
  refine ⟨rfl, rfl, ?_⟩
  simp [begin, truthy, dbOne]

/-- C8 amended: on GET, a truthy (present and non-empty) `addnew` renders
the intake form regardless of how many descriptors exist; otherwise a
nonzero descriptor count redirects to the admin surface and a zero count
renders the intake form. -/
theorem begin_get_dispatch (env : Env) (db : Db) (req : BeginRequest)
    (hmeth : req.method = .GET) :
    (truthy req.addnew = true →
      begin env db req = (db, .ok (.render "begin.html" {}))) ∧
    (truthy req.addnew = false → db.dynmodels.length ≠ 0 →
      begin env db req = (db, .ok (.redirect .admin))) ∧
    (truthy req.addnew = false → db.dynmodels.length = 0 →
      begin env db req = (db, .ok (.render "begin.html" {}))) := by
  refine ⟨fun ha => ?_, fun ha hn => ?_, fun ha hn => ?_⟩
  · simp [begin, hmeth, ha]
  · simp [begin, hmeth, ha, hn]
  · simp [begin, hmeth, ha, hn]

/-- Witness for the amended C8: `addnew=1` renders the intake form even
though a descriptor exists. -/
theorem begin_get_dispatch_witness :
    truthy (some "1") = true ∧
    begin envA dbOne { method := .GET, addnew := some "1" } =
      (dbOne, .ok (.render "begin.html" {})) :=
  ⟨rfl, (begin_get_dispatch envA dbOne { method := .GET, addnew := some "1" }
    rfl).1 rfl⟩

/-- C5: a POST to `refine_and_import` whose submitted column specification
fails refine-form validation performs no save (the database is returned
unchanged) and re-renders the refine page carrying the invalid form and
the descriptor. -/
theorem refine_invalid_no_mutation (env : Env) (db : Db) (req : RefineRequest)
    (id : Nat) (m : DynamicModel)
    (hm : db.find id = some m)
    (hmeth : req.method = .POST)
    (hcols : req.columns = none) :
    refine_and_import env db req id =
      (db, .ok (.render "refine-and-import.html"
        { form := some { data_columns := none }, dynmodel := some m })) := by
  simp [refine_and_import, hm, hmeth, hcols, SchemaRefineForm.is_valid]

/-- Witness for C5: a POST with no parseable columns field. -/
theorem refine_invalid_no_mutation_witness :
    dbOne.find 1 = some mCsv ∧
    refine_and_import envA dbOne { method := .POST } 1 =
      (dbOne, .ok (.render "refine-and-import.html"
        { form := some { data_columns := none }, dynmodel := some mCsv })) :=
  ⟨rfl, refine_invalid_no_mutation envA dbOne { method := .POST } 1 mCsv
    rfl rfl rfl⟩

/-- C9: a GET to `import_data` with a resolvable id only renders the
auto-submitting confirmation page with the descriptor and performs no
state change; an unresolvable id yields the not-found response. -/
theorem import_data_get_pure (env : Env) (db : Db) (req : RefineRequest)
    (id : Nat) :
    (db.find id = none → import_data env db req id = (db, .ok .notFound)) ∧
    (∀ m, db.find id = some m → req.method = .GET →
      import_data env db req id =
        (db, .ok (.render "import-data.html" { dynmodel := some m }))) := by
  constructor
  · intro h
    simp [import_data, h]
  · intro m hm hmeth
    simp [import_data, hm, hmeth]

/-- Witness for C9: a resolvable and an unresolvable id. -/
theorem import_data_get_pure_witness :
    dbOne.find 99 = none ∧
    import_data envA dbOne { method := .GET } 99 = (dbOne, .ok .notFound) ∧
    dbOne.find 1 = some mCsv ∧
    import_data envA dbOne { method := .GET } 1 =
      (dbOne, .ok (.render "import-data.html" { dynmodel := some mCsv })) :=
  ⟨rfl, (import_data_get_pure envA dbOne { method := .GET } 99).1 rfl, rfl,
   (import_data_get_pure envA dbOne { method := .GET } 1).2 mCsv rfl rfl⟩

/-- C7: `refine_and_import_by_name` resolves the descriptor by name and
delegates to `refine_and_import` on its id, returning not-found for an
unmatched name. -/
theorem by_name_delegates (env : Env) (db : Db) (req : RefineRequest)
    (n : String) :
    (db.findByName n = none →
      refine_and_import_by_name env db req n = (db, .ok .notFound)) ∧
    (∀ m, db.findByName n = some m →
      refine_and_import_by_name env db req n =
        refine_and_import env db req m.id) := by
  constructor
  · intro h
    simp [refine_and_import_by_name, get_or_404_by_name, h]
  · intro m hm
    simp [refine_and_import_by_name, get_or_404_by_name, hm]

/-- Witness for C7: a matched and an unmatched name. -/
theorem by_name_delegates_witness :
    dbOne.findByName "m1" = some mCsv ∧
    refine_and_import_by_name envA dbOne { method := .GET } "m1" =
      refine_and_import envA dbOne { method := .GET } mCsv.id ∧
    dbOne.findByName "zzz" = none ∧
    refine_and_import_by_name envA dbOne { method := .GET } "zzz" =
      (dbOne, .ok .notFound) :=
  ⟨rfl, (by_name_delegates envA dbOne { method := .GET } "m1").2 mCsv rfl, rfl,
   (by_name_delegates envA dbOne { method := .GET } "zzz").1 rfl⟩

/-- An error-free import over an empty table stores exactly the source rows
and then redirects or renders the completion page with their count. -/
theorem import_phase_no_errors (env : Env) (db : Db) (f : SchemaRefineForm)
    (m : DynamicModel) (csv : List Row)
    (hnoerr : csv.filterMap env.row_error = [])
    (hempty : db.rowsOf m.id = []) :
    import_phase env db f m csv =
      (db.setRows m.id csv,
       .ok (if truthy env.wizard_redirect_to then
              .redirect (.custom (env.wizard_redirect_to.getD ""))
            else
              .render "import-complete.html"
                { dynmodel := some m, n_records := some csv.length })) := by
  unfold import_phase
  rw [hempty, import_records_no_errors env csv [] hnoerr]
  simp [Db.rowsOf_setRows]
  split <;> rfl

/-- An import that reports errors stores the rows the importer kept and
re-renders the refine page with exactly the reported error list. -/
theorem import_phase_errors (env : Env) (db : Db) (f : SchemaRefineForm)
    (m : DynamicModel) (csv : List Row) (errs : List String)
    (herrs : csv.filterMap env.row_error = errs) (hne : errs ≠ []) :
    import_phase env db f m csv =
      (db.setRows m.id
        (db.rowsOf m.id ++ csv.filter (fun r => (env.row_error r).isNone)),
       .ok (.render "refine-and-import.html"
         { form := some f, dynmodel := some m, errors_list := some errs })) := by
  unfold import_phase import_records
  simp [herrs, hne]

/-- C3: on a valid POST to `refine_and_import` the data fetch dispatches on
the persisted source descriptor in order: OAuth sheet when both `csv_url`
and `csv_google_refresh_token` are populated, direct CSV when only
`csv_url` is, form service when `sd_api_key` is, and an uncaught
`NotImplementedError` when none of the three is. -/
theorem refine_fetch_dispatch (env : Env) (db : Db) (req : RefineRequest)
    (id : Nat) (m : DynamicModel) (cols : List Column)
    (hm : db.find id = some m)
    (hmeth : req.method = .POST)
    (hcols : req.columns = some cols) :
    refine_and_import env db req id =
      (match data_fetch env { m with columns := cols } with
       | .error e => (db.saveModel { m with columns := cols }, .error e)
       | .ok csv =>
         import_phase env (db.saveModel { m with columns := cols })
           { data_columns := some cols } { m with columns := cols } csv) ∧
    (truthy m.csv_url = true → truthy m.csv_google_refresh_token = true →
      data_fetch env { m with columns := cols } =
        .ok (env.private_sheet_csv
          (env.oauth_access_token env.google_client_id env.google_client_secret
            (m.csv_google_refresh_token.getD ""))
          (m.csv_url.getD ""))) ∧
    (truthy m.csv_url = true → truthy m.csv_google_refresh_token = false →
      data_fetch env { m with columns := cols } =
        .ok (env.fetch_csv (m.csv_url.getD ""))) ∧
    (truthy m.csv_url = false → truthy m.sd_api_key = true →
      data_fetch env { m with columns := cols } =
        .ok (env.screendoor_csv (m.sd_api_key.getD "") m.sd_project_id
          m.sd_form_id)) ∧
    (truthy m.csv_url = false → truthy m.sd_api_key = false →
      refine_and_import env db req id =
        (db.saveModel { m with columns := cols },
         .error (.notImplementedError { m with columns := cols }))) := by
  have hid0 : m.id = id := Db.id_of_find hm
  subst hid0
  have hfind2 : (db.saveModel { m with columns := cols }).find m.id =
      some { m with columns := cols } := Db.find_saveModel hm rfl
  refine ⟨?_, fun h1 h2 => ?_, fun h1 h2 => ?_, fun h1 h2 => ?_, fun h1 h2 => ?_⟩
  · simp [refine_and_import, hm, hmeth, hcols, SchemaRefineForm.is_valid,
      SchemaRefineForm.cleaned_columns, hfind2]
  · simp [data_fetch, h1, h2]
  · simp [data_fetch, h1, h2]
  · simp [data_fetch, h1, h2]
  · simp [refine_and_import, hm, hmeth, hcols, SchemaRefineForm.is_valid,
      SchemaRefineForm.cleaned_columns, hfind2, data_fetch, h1, h2]

/-- Witness for C3: the descriptor with no populated source field raises
the uncaught `NotImplementedError` after the columns were saved. -/
theorem refine_fetch_dispatch_witness :
    dbA.find 4 = some mBare ∧
    refine_and_import envA dbA { method := .POST, columns := some colsB } 4 =
      (dbA.saveModel { mBare with columns := colsB },
       .error (.notImplementedError { mBare with columns := colsB })) :=
  ⟨rfl,
   (refine_fetch_dispatch envA dbA { method := .POST, columns := some colsB }
     4 mBare colsB rfl rfl rfl).2.2.2.2 rfl rfl⟩

/-- C1: a valid POST to `refine_and_import` whose fetch succeeds and whose
importer run yields zero row errors persists the updated columns, imports
all source rows into the (initially empty) backing table, and redirects to
the configured post-import target when that setting is truthy, otherwise
renders the completion page whose record count is the number of rows now
in the backing table, equal to the number of source rows. -/
theorem refine_import_success (env : Env) (db : Db) (req : RefineRequest)
    (id : Nat) (m : DynamicModel) (cols : List Column) (csv : List Row)
    (hm : db.find id = some m)
    (hmeth : req.method = .POST)
    (hcols : req.columns = some cols)
    (hfetch : data_fetch env { m with columns := cols } = .ok csv)
    (hnoerr : csv.filterMap env.row_error = [])
    (hempty : db.rowsOf id = []) :
    (refine_and_import env db req id).1 =
      (db.saveModel { m with columns := cols }).setRows id csv ∧
    ((refine_and_import env db req id).1).find id =
      some { m with columns := cols } ∧
    ((refine_and_import env db req id).1).rowsOf id = csv ∧
    (truthy env.wizard_redirect_to = true →
      (refine_and_import env db req id).2 =
        .ok (.redirect (.custom (env.wizard_redirect_to.getD "")))) ∧
    (env.wizard_redirect_to = none →
      (refine_and_import env db req id).2 =
        .ok (.render "import-complete.html"
          { dynmodel := some { m with columns := cols },
            n_records := some csv.length })) := by
  have hid0 : m.id = id := Db.id_of_find hm
  subst hid0
  have hfind2 : (db.saveModel { m with columns := cols }).find m.id =
      some { m with columns := cols } := Db.find_saveModel hm rfl
  have key : refine_and_import env db req m.id =
      import_phase env (db.saveModel { m with columns := cols })
        { data_columns := some cols } { m with columns := cols } csv := by
    simp [refine_and_import, hm, hmeth, hcols, SchemaRefineForm.is_valid,
      SchemaRefineForm.cleaned_columns, hfind2, hfetch]
  have hempty2 : (db.saveModel { m with columns := cols }).rowsOf
      ({ m with columns := cols } : DynamicModel).id = [] := by
    rw [Db.rowsOf_saveModel]
    exact hempty
  have hphase := import_phase_no_errors env
    (db.saveModel { m with columns := cols }) { data_columns := some cols }
    { m with columns := cols } csv hnoerr hempty2
  rw [key, hphase]
  refine ⟨rfl, hfind2, Db.rowsOf_setRows _ _ _, fun h => ?_, fun h => ?_⟩
  · simp [h]
  · simp [h, truthy]

/-- Witness for C1: a two-row error-free CSV import with no redirect
setting renders the completion page counting both rows. -/
theorem refine_import_success_witness :
    dbOne.rowsOf 1 = [] ∧
    (refine_and_import envA dbOne { method := .POST, columns := some colsB }
      1).2 =
      .ok (.render "import-complete.html"
        { dynmodel := some { mCsv with columns := colsB },
          n_records := some 2 }) ∧
    ((refine_and_import envA dbOne { method := .POST, columns := some colsB }
      1).1).rowsOf 1 = [["r1"], ["r2"]] :=
  ⟨rfl,
   (refine_import_success envA dbOne { method := .POST, columns := some colsB }
     1 mCsv colsB [["r1"], ["r2"]] rfl rfl rfl rfl rfl rfl).2.2.2.2 rfl,
   (refine_import_success envA dbOne { method := .POST, columns := some colsB }
     1 mCsv colsB [["r1"], ["r2"]] rfl rfl rfl rfl rfl rfl).2.2.1⟩

/-- C2: a valid POST to `refine_and_import` whose import reports a
non-empty error list re-renders the refine page whose context carries
exactly those errors with the form and the descriptor, returns no
redirect, and the columns saved before the import remain persisted. -/
theorem refine_import_errors (env : Env) (db : Db) (req : RefineRequest)
    (id : Nat) (m : DynamicModel) (cols : List Column) (csv : List Row)
    (errs : List String)
    (hm : db.find id = some m)
    (hmeth : req.method = .POST)
    (hcols : req.columns = some cols)
    (hfetch : data_fetch env { m with columns := cols } = .ok csv)
    (herrs : csv.filterMap env.row_error = errs)
    (hne : errs ≠ []) :
    refine_and_import env db req id =
      ((db.saveModel { m with columns := cols }).setRows id
        (db.rowsOf id ++ csv.filter (fun r => (env.row_error r).isNone)),
       .ok (.render "refine-and-import.html"
         { form := some { data_columns := some cols },
           dynmodel := some { m with columns := cols },
           errors_list := some errs })) ∧
    ((refine_and_import env db req id).1).find id =
      some { m with columns := cols } := by
  have hid0 : m.id = id := Db.id_of_find hm
  subst hid0
  have hfind2 : (db.saveModel { m with columns := cols }).find m.id =
      some { m with columns := cols } := Db.find_saveModel hm rfl
  have key : refine_and_import env db req m.id =
      import_phase env (db.saveModel { m with columns := cols })
        { data_columns := some cols } { m with columns := cols } csv := by
    simp [refine_and_import, hm, hmeth, hcols, SchemaRefineForm.is_valid,
      SchemaRefineForm.cleaned_columns, hfind2, hfetch]
  have hphase := import_phase_errors env
    (db.saveModel { m with columns := cols }) { data_columns := some cols }
    { m with columns := cols } csv errs herrs hne
  rw [key, hphase]
  refine ⟨?_, hfind2⟩
  rw [Db.rowsOf_saveModel]

/-- Witness for C2: a fetch containing one invalid row re-renders the
refine page with that single error while the edited columns stay saved. -/
theorem refine_import_errors_witness :
    ([["bad"], ["r2"]] : List Row).filterMap envBad.row_error = ["bad row"] ∧
    (refine_and_import envBad dbOne { method := .POST, columns := some colsB }
      1).2 =
      .ok (.render "refine-and-import.html"
        { form := some { data_columns := some colsB },
          dynmodel := some { mCsv with columns := colsB },
          errors_list := some ["bad row"] }) ∧
    ((refine_and_import envBad dbOne { method := .POST, columns := some colsB }
      1).1).find 1 = some { mCsv with columns := colsB } :=
  ⟨rfl,
   by rw [(refine_import_errors envBad dbOne
       { method := .POST, columns := some colsB } 1 mCsv colsB
       [["bad"], ["r2"]] ["bad row"] rfl rfl rfl rfl rfl (by simp)).1],
   (refine_import_errors envBad dbOne
     { method := .POST, columns := some colsB } 1 mCsv colsB
     [["bad"], ["r2"]] ["bad row"] rfl rfl rfl rfl rfl (by simp)).2⟩

/-- C4: a POST to `begin` whose chosen factory raises the non-unique-column
error persists no schema descriptor (the database is returned unchanged)
and renders the intake page with the non-empty error string inline instead
of redirecting; stated for each of the three factory branches. -/
theorem begin_unique_column_error (env : Env) (db : Db) (req : BeginRequest)
    (e : String)
    (hmeth : req.method = .POST)
    (hne : e ≠ "") :
    (truthy req.csv_url = true → truthy req.csv_google_sheets_auth_code = true →
      env.infer_columns (.privateSheet (req.csv_url.getD "")
        (req.csv_google_sheets_auth_code.getD "")) = .error e →
      begin env db req =
        (db, .ok (.render "begin.html" { errors_str := some e }))) ∧
    (truthy req.csv_url = true → truthy req.csv_google_sheets_auth_code = false →
      env.infer_columns (.csvDirect (req.csv_url.getD "")) = .error e →
      begin env db req =
        (db, .ok (.render "begin.html" { errors_str := some e }))) ∧
    (∀ pid fid, truthy req.csv_url = false → truthy req.sd_api_key = true →
      py_int req.sd_project_id = .ok pid →
      sd_form_id_arg req = .ok fid →
      env.infer_columns (.screendoor (req.sd_api_key.getD "") pid fid) =
        .error e →
      begin env db req =
        (db, .ok (.render "begin.html" { errors_str := some e }))) ∧
    e ≠ "" := by
  refine ⟨fun h1 h2 hinf => ?_, fun h1 h2 hinf => ?_,
    fun pid fid h1 h2 hp hf hinf => ?_, hne⟩
  · simp [begin, hmeth, h1, h2, from_private_sheet, hinf]
  · simp [begin, hmeth, h1, h2, from_csv_url, hinf]
  · simp [begin, hmeth, h1, h2, hp, hf, from_screendoor, hinf]

/-- Witness for C4: a duplicate-column CSV URL re-renders the intake page
with the factory's error message and persists nothing. -/
theorem begin_unique_column_error_witness :
    begin envErr dbEmpty
      { method := .POST, csv_url := some "http://x/data.csv" } =
      (dbEmpty, .ok (.render "begin.html"
        { errors_str := some "non-unique column name: a" })) :=
  (begin_unique_column_error envErr dbEmpty
    { method := .POST, csv_url := some "http://x/data.csv" }
    "non-unique column name: a" rfl (by decide)).2.1 rfl rfl rfl

/-- C6: for each of the three source-field combinations a POST to `begin`
invokes the matching factory, which persists exactly one new schema
descriptor carrying the corresponding source fields, and the handler
redirects to the refine-and-import step keyed by the new descriptor's id;
when both `csv_url` and the auth code are present the private-sheet
factory is selected in preference to the direct-CSV factory. -/
theorem begin_creates_descriptor (env : Env) (db : Db) (req : BeginRequest)
    (cols : List Column)
    (hmeth : req.method = .POST) :
    (truthy req.csv_url = true → truthy req.csv_google_sheets_auth_code = true →
      env.infer_columns (.privateSheet (req.csv_url.getD "")
        (req.csv_google_sheets_auth_code.getD "")) = .ok cols →
      begin env db req =
        ({ db with dynmodels := db.dynmodels ++
            [{ id := fresh_id db, name := req.csv_name, columns := cols,
               csv_url := some (req.csv_url.getD ""),
               csv_google_refresh_token :=
                 some (env.exchange_auth_code
                   (req.csv_google_sheets_auth_code.getD "")),
               sd_api_key := none, sd_project_id := none,
               sd_form_id := none }] },
         .ok (.redirect (.refineAndImport (fresh_id db))))) ∧
    (truthy req.csv_url = true → truthy req.csv_google_sheets_auth_code = false →
      env.infer_columns (.csvDirect (req.csv_url.getD "")) = .ok cols →
      begin env db req =
        ({ db with dynmodels := db.dynmodels ++
            [{ id := fresh_id db, name := req.csv_name, columns := cols,
               csv_url := some (req.csv_url.getD ""),
               csv_google_refresh_token := none,
               sd_api_key := none, sd_project_id := none,
               sd_form_id := none }] },
         .ok (.redirect (.refineAndImport (fresh_id db))))) ∧
    (∀ pid fid, truthy req.csv_url = false → truthy req.sd_api_key = true →
      py_int req.sd_project_id = .ok pid →
      sd_form_id_arg req = .ok fid →
      env.infer_columns (.screendoor (req.sd_api_key.getD "") pid fid) =
        .ok cols →
      begin env db req =
        ({ db with dynmodels := db.dynmodels ++
            [{ id := fresh_id db, name := req.sd_name, columns := cols,
               csv_url := none, csv_google_refresh_token := none,
               sd_api_key := some (req.sd_api_key.getD ""),
               sd_project_id := some pid, sd_form_id := fid }] },
         .ok (.redirect (.refineAndImport (fresh_id db))))) := by
  refine ⟨fun h1 h2 hinf => ?_, fun h1 h2 hinf => ?_,
    fun pid fid h1 h2 hp hf hinf => ?_⟩
  · simp [begin, hmeth, h1, h2, from_private_sheet, hinf]
  · simp [begin, hmeth, h1, h2, from_csv_url, hinf]
  · simp [begin, hmeth, h1, h2, hp, hf, from_screendoor, hinf]

/-- Witness for C6: a private-sheet submission with both `csv_url` and an
auth code creates the one descriptor with url and refresh token set and
redirects to its refine step. -/
theorem begin_creates_descriptor_witness :
    truthy (some "code") = true ∧
    begin envA dbEmpty
      { method := .POST, csv_url := some "http://sheet",
        csv_google_sheets_auth_code := some "code", csv_name := some "s" } =
      ({ dynmodels := [{ id := 1, name := some "s", columns := colsA,
                         csv_url := some "http://sheet",
                         csv_google_refresh_token := some "rt-code",
                         sd_api_key := none, sd_project_id := none,
                         sd_form_id := none }],
         tables := [] },
       .ok (.redirect (.refineAndImport 1))) :=
  ⟨rfl, (begin_creates_descriptor envA dbEmpty
    { method := .POST, csv_url := some "http://sheet",
      csv_google_sheets_auth_code := some "code", csv_name := some "s" }
    colsA rfl).1 rfl rfl rfl⟩

end Collaborative
